import Mathlib

/-!
# Verification of the save-grail-json ingestion and upsert pipeline

A shallow embedding of the core of the repository: JSON field extraction
(src/ingestion.py), the insert/update/duplicate upsert decision and the
schema migrations (src/database.py).  Python `json.loads` output is
modelled by the inductive `Json` below (Python `None` and JSON `null`
are the same value, `Json.null`); machine floats are modelled exactly as
rationals, which agrees with the source on every decimal literal the
theorems touch; Python exceptions are modelled by `Except`.
-/

namespace SaveGrail

/-- A parsed JSON value as `json.loads` produces it: `null` is Python
`None`, objects are key/value lists (parsed Python dicts have unique
keys). -/
inductive Json where
  | null : Json
  | bool : Bool → Json
  | num : ℚ → Json
  | str : String → Json
  | arr : List Json → Json
  | obj : List (String × Json) → Json

/-- Python truthiness of a JSON value: `None`, `False`, `0`, `""`, `[]`
and the empty dict are falsy, everything else is truthy. -/
def truthy : Json → Bool
  | .null => false
  | .bool b => b
  | .num q => decide (q ≠ 0)
  | .str s => decide (s ≠ "")
  | .arr xs => !xs.isEmpty
  | .obj kvs => !kvs.isEmpty

/-- `d.get(k)` on a parsed dict: the stored value, or Python `None`
(= `Json.null`) when the key is missing. -/
def jget (kvs : List (String × Json)) (k : String) : Json :=
  match kvs.find? (fun p => p.1 == k) with
  | some p => p.2
  | none => .null

/-- The Unicode decimal-digit (category Nd) ranges of CPython's Unicode
tables (Python 3.11, Unicode 14.0), each an aligned run whose digit
values are the offsets modulo 10.  Python's regex `\d` (str pattern
without `re.ASCII`) matches exactly these characters, and `float()` /
`int()` accept them wherever an ASCII digit is accepted. -/
def ndRanges : List (ℕ × ℕ) :=
  [(0x30, 0x39), (0x660, 0x669), (0x6F0, 0x6F9), (0x7C0, 0x7C9),
   (0x966, 0x96F), (0x9E6, 0x9EF), (0xA66, 0xA6F), (0xAE6, 0xAEF),
   (0xB66, 0xB6F), (0xBE6, 0xBEF), (0xC66, 0xC6F), (0xCE6, 0xCEF),
   (0xD66, 0xD6F), (0xDE6, 0xDEF), (0xE50, 0xE59), (0xED0, 0xED9),
   (0xF20, 0xF29), (0x1040, 0x1049), (0x1090, 0x1099), (0x17E0, 0x17E9),
   (0x1810, 0x1819), (0x1946, 0x194F), (0x19D0, 0x19D9), (0x1A80, 0x1A89),
   (0x1A90, 0x1A99), (0x1B50, 0x1B59), (0x1BB0, 0x1BB9), (0x1C40, 0x1C49),
   (0x1C50, 0x1C59), (0xA620, 0xA629), (0xA8D0, 0xA8D9), (0xA900, 0xA909),
   (0xA9D0, 0xA9D9), (0xA9F0, 0xA9F9), (0xAA50, 0xAA59), (0xABF0, 0xABF9),
   (0xFF10, 0xFF19), (0x104A0, 0x104A9), (0x10D30, 0x10D39), (0x11066, 0x1106F),
   (0x110F0, 0x110F9), (0x11136, 0x1113F), (0x111D0, 0x111D9), (0x112F0, 0x112F9),
   (0x11450, 0x11459), (0x114D0, 0x114D9), (0x11650, 0x11659), (0x116C0, 0x116C9),
   (0x11730, 0x11739), (0x118E0, 0x118E9), (0x11950, 0x11959), (0x11C50, 0x11C59),
   (0x11D50, 0x11D59), (0x11DA0, 0x11DA9), (0x16A60, 0x16A69), (0x16AC0, 0x16AC9),
   (0x16B50, 0x16B59), (0x1D7CE, 0x1D7FF), (0x1E140, 0x1E149), (0x1E2F0, 0x1E2F9),
   (0x1E950, 0x1E959), (0x1FBF0, 0x1FBF9)]

/-- Python's `\d` for str patterns: any Unicode decimal digit. -/
def pyDigit (c : Char) : Bool :=
  ndRanges.any (fun r => r.1 ≤ c.toNat && c.toNat ≤ r.2)

/-- The decimal value of a Unicode digit: its offset in its (aligned)
Nd run, modulo 10. -/
def pyDigitVal (c : Char) : ℕ :=
  match ndRanges.find? (fun r => r.1 ≤ c.toNat && c.toNat ≤ r.2) with
  | some r => (c.toNat - r.1) % 10
  | none => 0

/-- Python exceptions that can escape the extraction code. -/
inductive PyErr where
  | attributeError : PyErr
  | typeError : PyErr
  | overflowError : PyErr

/-- `x.get(k)` on an arbitrary Python value: an `AttributeError` unless
`x` is a dict. -/
def getPy : Json → String → Except PyErr Json
  | .obj kvs, k => .ok (jget kvs k)
  | _, _ => .error .attributeError

/-- The source's `x or {}` idiom: keep `x` when truthy, else the empty
dict. -/
def orEmpty (j : Json) : Json :=
  if truthy j then j else .obj []

/-- Statement-side accessor: `d.get(k)` when `d` is a dict, `null`
otherwise (used only to phrase theorem hypotheses). -/
def dictGet : Json → String → Json
  | .obj kvs, k => jget kvs k
  | _, _ => .null

/-- Numeric value of a (Unicode) digit string, most significant digit
first. -/
def digitsVal (ds : List Char) : ℕ :=
  ds.foldl (fun a c => 10 * a + pyDigitVal c) 0

/-- Exact value of a decimal numeral with integer digits `ds` and
fraction digits `fs` (the value Python `float` gives the matched text,
modelled exactly as a rational; a token so long that the double
overflows to infinity is modelled by its exact value instead — no
theorem evaluates one). -/
def tokenVal (ds fs : List Char) : ℚ :=
  mkRat ((digitsVal ds * 10 ^ fs.length + digitsVal fs : ℕ) : ℤ) (10 ^ fs.length)

/-- Leading `+`/`-` sign of a numeric literal. -/
def parseSign : List Char → (Bool × List Char)
  | '-' :: r => (true, r)
  | '+' :: r => (false, r)
  | cs => (false, cs)

/-- Exponent suffix of a Python float literal (`e`/`E`, sign, digits);
`some 0` on empty input, `none` when the suffix is malformed. -/
def parseExp : List Char → Option ℤ
  | [] => some 0
  | 'e' :: r => parseExpTail r
  | 'E' :: r => parseExpTail r
  | _ => none
where
  parseExpTail (r : List Char) : Option ℤ :=
    let (neg, r2) := parseSign r
    let ds := r2.takeWhile pyDigit
    let rest := r2.dropWhile pyDigit
    if ds.isEmpty || !rest.isEmpty then none
    else some (if neg then -(digitsVal ds : ℤ) else (digitsVal ds : ℤ))

/-- Scaling by a power of ten (the exponent part of a float literal). -/
def applyExp (q : ℚ) (e : ℤ) : ℚ :=
  if 0 ≤ e then mkRat (q.num * 10 ^ e.toNat) q.den
  else mkRat q.num (q.den * 10 ^ (-e).toNat)

/-- Unsigned part of a Python float literal: digits, optional point and
fraction digits, optional exponent. -/
def parseUnsignedFloat (cs : List Char) : Option ℚ :=
  let intDs := cs.takeWhile pyDigit
  let rest := cs.dropWhile pyDigit
  match rest with
  | '.' :: r2 =>
    let fracDs := r2.takeWhile pyDigit
    let rest2 := r2.dropWhile pyDigit
    if intDs.isEmpty && fracDs.isEmpty then none
    else (parseExp rest2).map (fun e => applyExp (tokenVal intDs fracDs) e)
  | _ =>
    if intDs.isEmpty then none
    else (parseExp rest).map (fun e => applyExp (tokenVal intDs []) e)

/-- PEP 515 underscore removal as `float()`/`int()` perform it: an
underscore is legal only directly between two digits and is dropped;
any other underscore makes the whole literal invalid.  The flag records
whether the previous character was a digit. -/
def remUnderscores : Bool → List Char → Option (List Char)
  | _, [] => some []
  | prev, '_' :: rest =>
    match prev, rest with
    | true, r :: _ => if pyDigit r then remUnderscores false rest else none
    | _, _ => none
  | _, c :: rest => (remUnderscores (pyDigit c) rest).map (fun ta => c :: ta)

/-- Python `float(s)` on a string: strip whitespace, drop PEP 515
underscores, optional sign, decimal literal (Unicode digits included,
as CPython normalises them to ASCII before parsing) with optional
fraction and exponent; `none` models the `ValueError` on anything else.
The `inf`/`nan` spellings, literals so large that the double overflows
to infinity, and Unicode-only whitespace are not modelled — no JSON
document the theorems touch produces them. -/
def pyFloatString (s : String) : Option ℚ :=
  let cs := ((s.data.dropWhile (·.isWhitespace)).reverse.dropWhile (·.isWhitespace)).reverse
  if cs.isEmpty then none
  else
    match remUnderscores false cs with
    | none => none
    | some cs1 =>
      let (neg, cs2) := parseSign cs1
      (parseUnsignedFloat cs2).map (fun q => if neg then -q else q)

/-- Python `int(s)` on a string: strip whitespace, drop PEP 515
underscores, optional sign, (Unicode) digits only; `none` models the
`ValueError` on anything else. -/
def pyIntString (s : String) : Option ℤ :=
  let cs := ((s.data.dropWhile (·.isWhitespace)).reverse.dropWhile (·.isWhitespace)).reverse
  match remUnderscores false cs with
  | none => none
  | some cs1 =>
    let (neg, cs2) := parseSign cs1
    let ds := cs2.takeWhile pyDigit
    let rest := cs2.dropWhile pyDigit
    if ds.isEmpty || !rest.isEmpty then none
    else some (if neg then -(digitsVal ds : ℤ) else (digitsVal ds : ℤ))

/-- The smallest integer magnitude on which Python `float()` raises
`OverflowError`: integers of magnitude at least `2 ^ 1024 - 2 ^ 970`
round (ties-to-even) past the largest finite double.  Written as a
literal so that it evaluates; `floatOverflowBound_eq` below checks it
against the formula. -/
def floatOverflowBound : ℕ :=
  179769313486231580793728971405303415079934132710037826936173778980444968292764750946649017977587207096330286416692887910946555547851940402630657488671505820681908902000708383676273854845817711531764475730270069855571366959622842914819860834936475292719074168444365510704342711559699508093042880177904174497792

/-- `_safe_float` (src/src/ingestion.py lines 47-54): `None` → `None`,
then `float(value)` with only `ValueError`/`TypeError` caught and
mapped to `None`.  Python `float` sends `True`/`False` to `1.0`/`0.0`,
numbers to themselves, numeric strings to their value, and raises
`TypeError` on lists and dicts — all absorbed — but on an int of
magnitude ≥ `floatOverflowBound` it raises `OverflowError`, which the
`except (ValueError, TypeError)` clause does NOT catch, so it escapes.
A JSON number is a Python int exactly when its literal was integral
(`q.den = 1` covers it: parsed floats are finite doubles, far below the
bound, so only int-sourced values can reach it). -/
def safeFloat : Json → Except PyErr (Option ℚ)
  | .null => .ok none
  | .bool b => .ok (some (if b then 1 else 0))
  | .num q =>
    if q.den = 1 ∧ floatOverflowBound ≤ q.num.natAbs then
      .error .overflowError
    else .ok (some q)
  | .str s => .ok (pyFloatString s)
  | .arr _ => .ok none
  | .obj _ => .ok none

/-- A value on which `float()` cannot overflow: everything except an
integral JSON number of magnitude at least `floatOverflowBound`
(statement-side predicate). -/
def noFloatOverflow : Json → Bool
  | .num q => decide (¬ (q.den = 1 ∧ floatOverflowBound ≤ q.num.natAbs))
  | _ => true

/-- `_safe_int` (src/src/ingestion.py lines 57-64): `None` → `None`,
then `int(value)` with `ValueError`/`TypeError` mapped to `None`.
Python `int` sends `True`/`False` to `1`/`0`, truncates numbers toward
zero, parses integer-literal strings, and raises `TypeError` on lists
and dicts. -/
def safeInt : Json → Option ℤ
  | .null => none
  | .bool b => some (if b then 1 else 0)
  | .num q => some (Int.tdiv q.num (q.den : ℤ))
  | .str s => pyIntString s
  | .arr _ => none
  | .obj _ => none

/-- `_safe_bool` (src/src/ingestion.py lines 67-73): only a literal
boolean source value passes through; `None` and every non-boolean value
yield `None`.  The source performs no fallible operation here, so the
function is total — it cannot raise. -/
def safeBool : Json → Option Bool
  | .bool b => some b
  | _ => none

/-- First numeric token of a character list, as the regex
`(\d+(?:\.\d+)?)%?` of `_extract_confidence_pct` finds it with
`re.search`: the leftmost maximal run of Unicode decimal digits (`\d`
on a str pattern is not ASCII-only, see `pyDigit`), with fraction
digits when a point directly followed by a digit comes next.  Returns the integer
digits and the fraction digits (empty when the point is absent or not
followed by a digit, in which case the regex group carries no fraction
— the numeric value is the same either way). -/
def fracDigits : List Char → List Char
  | '.' :: r2 => r2.takeWhile pyDigit
  | _ => []

/-- Scan for the first digit and return the token starting there (see
`fracDigits`); `none` when the text has no digit. -/
def numToken : List Char → Option (List Char × List Char)
  | [] => none
  | c :: rest =>
    if pyDigit c then
      some ((c :: rest).takeWhile pyDigit,
            fracDigits ((c :: rest).dropWhile pyDigit))
    else numToken rest

/-- `_extract_confidence_pct` (src/src/ingestion.py lines 19-44): falsy
input (`None` or the empty string) yields `None`; otherwise the first
numeric token of the text (the regex group before the optional `%`) is
converted with `float`, modelled exactly as a rational. -/
def extract_confidence_pct (confidence_text : Option String) : Option ℚ :=
  match confidence_text with
  | none => none
  | some s =>
    if s = "" then none
    else
      match numToken s.data with
      | none => none
      | some (ds, fs) => some (tokenVal ds fs)

/-- The call `_extract_confidence_pct(trade_confidence_text)` as it is
reached from `ingest_json_file`: the argument is a raw `.get` result, so
a falsy value yields `None`, a (truthy) string is parsed, and any truthy
non-string makes `re.search` raise `TypeError`. -/
def confidencePctOfValue (v : Json) : Except PyErr (Option ℚ) :=
  if truthy v = false then .ok none
  else
    match v with
    | .str s => .ok (extract_confidence_pct (some s))
    | _ => .error .typeError

/-- The extracted data of one grail file (`GrailFileData`,
src/src/ingestion.py lines 76-189).  Fields annotated `Optional[str]` in
the source receive raw `.get` results, which Python does not type-check,
so they are modelled as `Json` with `Json.null` for absent; fields that
pass through `_safe_float` / `_safe_int` / `_safe_bool` are genuinely
optional typed values.  Defaults mirror the keyword defaults of the
source constructor. -/
structure GrailFileData where
  file_path : String
  json_content : String
  content_hash : String
  ticker : Json := .null
  asset_type : Json := .null
  file_created_at : Option ℕ := none
  file_modified_at : Option ℕ := none
  status : Json := .null
  error_message : Json := .null
  trade_style : Json := .null
  account_size : Option ℚ := none
  risk_percent : Option ℚ := none
  should_trade : Option Bool := none
  trade_action : Json := .null
  trade_confidence_text : Json := .null
  trade_confidence_pct : Option ℚ := none
  no_trade_reason : Json := .null
  entry_direction : Json := .null
  entry_price : Option ℚ := none
  entry_recommendation : Json := .null
  position_quantity : Option ℤ := none
  position_unit_type : Json := .null
  position_size_recommendation : Json := .null
  position_total_cost_text : Json := .null
  position_max_risk_text : Json := .null
  market_status : Json := .null
  is_tradeable_now : Option Bool := none
  in_trial : Option Bool := none
  runs_remaining : Option ℤ := none
  daily_runs_remaining : Option ℤ := none
  resolved_ticker : Json := .null
  resolved_ticker_method : Json := .null
  technical_confidence : Option ℚ := none
  macro_confidence : Option ℚ := none
  wild_card_risk : Json := .null
  agent_agreement : Json := .null
  option_contract_symbol : Json := .null
  option_type : Json := .null
  option_strike : Option ℚ := none
  option_expiration : Json := .null
  option_days_to_expiry : Option ℤ := none
  option_delta : Option ℚ := none
  option_mid_price : Option ℚ := none
  option_volume : Option ℤ := none
  option_open_interest : Option ℤ := none

/-- The discriminant test `asset_type == 'OPTIONS'` of
src/src/ingestion.py line 314: true exactly for the string value
`"OPTIONS"`. -/
def isOptions : Json → Bool
  | .str s => s == "OPTIONS"
  | _ => false

/-- The field-extraction part of `ingest_json_file`
(src/src/ingestion.py lines 227-381), after the file has been read and
parsed.  `data` is the parsed document; `json_content`, the file path,
the SHA-256 `content_hash` of the raw text and the two filesystem
timestamps are computed before this point and passed through verbatim.
Every `.get` on a non-dict value raises `AttributeError`,
`_extract_confidence_pct` on a truthy non-string raises `TypeError`,
and `_safe_float` on an overflowing integer raises `OverflowError`,
exactly as in Python; the `x or {}` guards only neutralise falsy
values. -/
def extractFields (data : Json) (json_content : String) (fp : String)
    (content_hash : String) (fct fmt : Option ℕ) :
    Except PyErr GrailFileData :=
  match data with
  | .obj kvs =>
    let ticker := jget kvs "ticker"
    let asset_type := jget kvs "asset_type"
    let status := jget kvs "status"
    let error_message := jget kvs "error"
    let trade_style := jget kvs "trade_style"
    do
    let account_size ← safeFloat (jget kvs "account_size")
    let risk_percent ← safeFloat (jget kvs "risk_percent")
    let trade_plan := orEmpty (jget kvs "trade_plan")
    let should_trade := safeBool (← getPy trade_plan "trade")
    let verdict := orEmpty (← getPy trade_plan "verdict")
    let trade_action ← getPy verdict "action"
    let trade_confidence_text ← getPy verdict "confidence"
    let trade_confidence_pct ← confidencePctOfValue trade_confidence_text
    let no_trade_reason ← getPy trade_plan "no_trade_reason"
    let entry := orEmpty (← getPy trade_plan "entry")
    let entry_direction ← getPy entry "direction"
    let entry_price ← safeFloat (← getPy entry "current_price")
    let entry_recommendation ← getPy entry "recommendation"
    let position := orEmpty (← getPy trade_plan "position")
    let position_quantity := safeInt (← getPy position "quantity")
    let position_unit_type ← getPy position "unit_type"
    let position_size_recommendation ← getPy position "size_recommendation"
    let position_total_cost_text ← getPy position "total_cost"
    let position_max_risk_text ← getPy position "max_risk"
    let market_session := orEmpty (jget kvs "market_session")
    let market_status ← getPy market_session "status"
    let is_tradeable_now := safeBool (← getPy market_session "is_tradeable_now")
    let in_trial := safeBool (jget kvs "in_trial")
    let runs_remaining := safeInt (jget kvs "runs_remaining")
    let daily_runs_remaining := safeInt (jget kvs "daily_runs_remaining")
    let resolved_ticker := jget kvs "resolved_ticker"
    let resolved_ticker_method := jget kvs "resolved_ticker_method"
    let agent_verdicts := orEmpty (jget kvs "agent_verdicts")
    let technical := orEmpty (← getPy agent_verdicts "technical")
    let macroDict := orEmpty (← getPy agent_verdicts "macro")
    let technical_confidence ← safeFloat (← getPy technical "confidence")
    let macro_confidence ← safeFloat (← getPy macroDict "confidence")
    let synthesis := orEmpty (← getPy trade_plan "synthesis")
    let wild_card_risk ← getPy synthesis "wild_card_risk"
    let agent_agreement ← getPy synthesis "agent_agreement"
    if isOptions asset_type then
      let recommended_contract := orEmpty (← getPy trade_plan "recommended_contract")
      let option_contract_symbol ← getPy recommended_contract "symbol"
      let option_type ← getPy recommended_contract "type"
      let option_strike ← safeFloat (← getPy recommended_contract "strike")
      let option_expiration ← getPy recommended_contract "expiration"
      let option_days_to_expiry := safeInt (← getPy recommended_contract "days_to_expiration")
      let option_delta ← safeFloat (← getPy recommended_contract "delta")
      let option_mid_price ← safeFloat (← getPy recommended_contract "mid_price")
      let option_volume := safeInt (← getPy recommended_contract "volume")
      let option_open_interest := safeInt (← getPy recommended_contract "open_interest")
      .ok { file_path := fp, json_content := json_content,
            content_hash := content_hash, ticker := ticker,
            asset_type := asset_type, file_created_at := fct,
            file_modified_at := fmt, status := status,
            error_message := error_message, trade_style := trade_style,
            account_size := account_size, risk_percent := risk_percent,
            should_trade := should_trade, trade_action := trade_action,
            trade_confidence_text := trade_confidence_text,
            trade_confidence_pct := trade_confidence_pct,
            no_trade_reason := no_trade_reason,
            entry_direction := entry_direction, entry_price := entry_price,
            entry_recommendation := entry_recommendation,
            position_quantity := position_quantity,
            position_unit_type := position_unit_type,
            position_size_recommendation := position_size_recommendation,
            position_total_cost_text := position_total_cost_text,
            position_max_risk_text := position_max_risk_text,
            market_status := market_status,
            is_tradeable_now := is_tradeable_now, in_trial := in_trial,
            runs_remaining := runs_remaining,
            daily_runs_remaining := daily_runs_remaining,
            resolved_ticker := resolved_ticker,
            resolved_ticker_method := resolved_ticker_method,
            technical_confidence := technical_confidence,
            macro_confidence := macro_confidence,
            wild_card_risk := wild_card_risk,
            agent_agreement := agent_agreement,
            option_contract_symbol := option_contract_symbol,
            option_type := option_type, option_strike := option_strike,
            option_expiration := option_expiration,
            option_days_to_expiry := option_days_to_expiry,
            option_delta := option_delta,
            option_mid_price := option_mid_price,
            option_volume := option_volume,
            option_open_interest := option_open_interest }
    else
      .ok { file_path := fp, json_content := json_content,
            content_hash := content_hash, ticker := ticker,
            asset_type := asset_type, file_created_at := fct,
            file_modified_at := fmt, status := status,
            error_message := error_message, trade_style := trade_style,
            account_size := account_size, risk_percent := risk_percent,
            should_trade := should_trade, trade_action := trade_action,
            trade_confidence_text := trade_confidence_text,
            trade_confidence_pct := trade_confidence_pct,
            no_trade_reason := no_trade_reason,
            entry_direction := entry_direction, entry_price := entry_price,
            entry_recommendation := entry_recommendation,
            position_quantity := position_quantity,
            position_unit_type := position_unit_type,
            position_size_recommendation := position_size_recommendation,
            position_total_cost_text := position_total_cost_text,
            position_max_risk_text := position_max_risk_text,
            market_status := market_status,
            is_tradeable_now := is_tradeable_now, in_trial := in_trial,
            runs_remaining := runs_remaining,
            daily_runs_remaining := daily_runs_remaining,
            resolved_ticker := resolved_ticker,
            resolved_ticker_method := resolved_ticker_method,
            technical_confidence := technical_confidence,
            macro_confidence := macro_confidence,
            wild_card_risk := wild_card_risk,
            agent_agreement := agent_agreement }
  | _ => .error .attributeError

/-- The error `database.py` raises (`class DatabaseError(Exception)`,
src/src/database.py lines 14-16): a single exception class carrying a
message. -/
structure DatabaseError where
  message : String

/-- One row of the `grail_files` table: the surrogate `id` (SERIAL
PRIMARY KEY), the per-file columns (exactly the fields of
`GrailFileData`), and the two bookkeeping timestamps, both defaulted to
`CURRENT_TIMESTAMP` at insert. -/
structure Row where
  id : ℕ
  data : GrailFileData
  ingested_at : ℕ
  updated_at : ℕ

/-- The store: the rows of `grail_files` plus the SERIAL counter. -/
structure DBState where
  rows : List Row
  nextId : ℕ

/-- The three outcomes `insert_grail_file` reports. -/
inductive UpsertResult where
  | inserted : UpsertResult
  | updated : UpsertResult
  | duplicate : UpsertResult

/-- `SELECT file_path FROM grail_files WHERE content_hash = %s`
(src/src/database.py lines 306-310). -/
def findByHash (s : DBState) (h : String) : Option Row :=
  s.rows.find? (fun r => r.data.content_hash == h)

/-- `SELECT id FROM grail_files WHERE file_path = %s`
(src/src/database.py lines 317-321). -/
def findByPath (s : DBState) (p : String) : Option Row :=
  s.rows.find? (fun r => r.data.file_path == p)

/-- The UPDATE of src/src/database.py lines 325-391: every data column
is overwritten from the new record except `file_path` (the WHERE key,
absent from the SET list), `id` and `ingested_at`; `updated_at` is set
to `CURRENT_TIMESTAMP`. -/
def updateRow (r : Row) (d : GrailFileData) (now : ℕ) : Row :=
  { r with
    data := { d with file_path := (r.data).file_path },
    updated_at := now }

/-- The INSERT of src/src/database.py lines 396-445: a fresh SERIAL id,
all data columns from the record, `ingested_at` and `updated_at` from
their `CURRENT_TIMESTAMP` defaults. -/
def newRow (i : ℕ) (d : GrailFileData) (now : ℕ) : Row :=
  { id := i, data := d, ingested_at := now, updated_at := now }

/-- `insert_grail_file` (src/src/database.py lines 227-450): look up by
`content_hash`, then by `file_path`, then update or insert.  `now`
models `CURRENT_TIMESTAMP`.  `writeFail` injects a `psycopg2.Error` at
the write statement (`some m` = the write raises with message `m`); the
handler at lines 448-450 then rolls the transaction back — the state is
returned unchanged — and raises `DatabaseError`. -/
def insert_grail_file (s : DBState) (d : GrailFileData) (now : ℕ)
    (writeFail : Option String) :
    Except DatabaseError UpsertResult × DBState :=
  match findByHash s d.content_hash with
  | some _ => (.ok .duplicate, s)
  | none =>
    match findByPath s d.file_path with
    | some _ =>
      match writeFail with
      | some m => (.error ⟨"Failed to insert/update file: " ++ m⟩, s)
      | none =>
        (.ok .updated,
         { s with rows := (s.rows.map
             (fun r => if (r.data).file_path == d.file_path
                       then updateRow r d now else r)) })
    | none =>
      match writeFail with
      | some m => (.error ⟨"Failed to insert/update file: " ++ m⟩, s)
      | none =>
        (.ok .inserted,
         { rows := s.rows ++ [newRow s.nextId d now],
           nextId := s.nextId + 1 })

/-- A pre-migration row of `grail_files` as the migrations see it:
its id, its raw `json_content` text and its (possibly still absent)
`content_hash` column value. -/
structure MigRow where
  id : ℕ
  json_content : String
  content_hash : Option String

/-- The schema state the two migrations read and write: which columns
and constraints exist, the declared type of `json_content` (`none` when
the column is missing), and the user rows. -/
structure MigrationState where
  hasContentHashCol : Bool
  hasUpdatedAtCol : Bool
  contentHashNotNull : Bool
  contentHashUnique : Bool
  jsonContentType : Option String
  rows : List MigRow

/-- `_migrate_add_content_hash` (src/src/database.py lines 140-195).
`hash` models `hashlib.sha256(...).hexdigest()`.  `failStep` injects a
`psycopg2.Error` at one numbered statement: 1 = the column-existence
check, 2 = ALTER TABLE ADD COLUMN, 3 = the backfill SELECT, 4 = the
backfill UPDATE loop, 5 = ALTER COLUMN SET NOT NULL, 6 = ADD CONSTRAINT
UNIQUE.  The function commits after steps 2, 4, 5 and 6; the `except`
handler rolls back to the last commit and falls through (`pass`) — it
contains no logging call and re-raises nothing, so the returned log is
empty and the result is `ok` on every path.  The returned triple is
(committed state, emitted log lines, result). -/
def migrateAddContentHash (hash : String → String) (s : MigrationState)
    (failStep : Option ℕ) :
    MigrationState × List String × Except DatabaseError Unit :=
  if failStep = some 1 then (s, [], .ok ())
  else if s.hasContentHashCol then (s, [], .ok ())
  else if failStep = some 2 then (s, [], .ok ())
  else
    let s2 := { s with hasContentHashCol := true, hasUpdatedAtCol := true }
    if failStep = some 3 then (s2, [], .ok ())
    else if failStep = some 4 then (s2, [], .ok ())
    else
      let s4 := { s2 with rows := (s2.rows.map
        (fun r => { r with content_hash := some (hash r.json_content) })) }
      if failStep = some 5 then (s4, [], .ok ())
      else
        let s5 := { s4 with contentHashNotNull := true }
        if failStep = some 6 then (s5, [], .ok ())
        else ({ s5 with contentHashUnique := true }, [], .ok ())

/-- `_migrate_text_to_jsonb` (src/src/database.py lines 197-225).
`failStep` injects a `psycopg2.Error` at: 1 = the data-type check, 2 =
the ALTER COLUMN TYPE statement.  A missing column or any type other
than `text` leaves the state alone; the `except` handler rolls back,
logs nothing and swallows the error. -/
def migrateTextToJsonb (s : MigrationState) (failStep : Option ℕ) :
    MigrationState × List String × Except DatabaseError Unit :=
  if failStep = some 1 then (s, [], .ok ())
  else
    match s.jsonContentType with
    | none => (s, [], .ok ())
    | some t =>
      if t = "jsonb" then (s, [], .ok ())
      else if t = "text" then
        if failStep = some 2 then (s, [], .ok ())
        else ({ s with jsonContentType := some "jsonb" }, [], .ok ())
      else (s, [], .ok ())

/-- The filesystem as `ingest_json_file` probes it: a path is missing,
exists but is not a regular file, is a file whose read raises, or is a
readable file with UTF-8 content. -/
inductive FileNode where
  | missing : FileNode
  | notFile : FileNode
  | unreadable : String → FileNode
  | readable : String → FileNode

/-- The error value `ingestion.py` raises: the source defines the single
class `IngestionError(Exception)` (src/src/ingestion.py lines 14-16) and
every failure site raises that same class with a formatted message, so
an error value is its class name — always `"IngestionError"` — plus the
message. -/
structure IngestionError where
  className : String
  message : String

/-- Every raise site of `ingest_json_file` builds
`IngestionError(message)`: the base class directly, never a subclass. -/
def mkIngestionError (m : String) : IngestionError :=
  ⟨"IngestionError", m⟩

/-- The file-access and parse stage of `ingest_json_file`
(src/src/ingestion.py lines 205-225): existence check, regular-file
check, read, JSON parse.  `loads` abstracts `json.loads`, returning the
decode-error text on invalid JSON.  On success the raw text and the
parsed document are handed to field extraction. -/
def ingestCheck (fs : String → FileNode)
    (loads : String → Except String Json) (file_path : String) :
    Except IngestionError (String × Json) :=
  match fs file_path with
  | .missing => .error (mkIngestionError ("File not found: " ++ file_path))
  | .notFile => .error (mkIngestionError ("Not a file: " ++ file_path))
  | .unreadable e =>
    .error (mkIngestionError ("Failed to read file " ++ file_path ++ ": " ++ e))
  | .readable json_content =>
    match loads json_content with
    | .error e =>
      .error (mkIngestionError ("Invalid JSON in " ++ file_path ++ ": " ++ e))
    | .ok data => .ok (json_content, data)

/-- The four failure modes §4.2 of the spec names for ingestion. -/
inductive IngestKind where
  | notFound : IngestKind
  | invalidInput : IngestKind
  | readFailure : IngestKind
  | parseFailure : IngestKind

/-- A caller-side classifier for `IngestionError` values.  The four
message formats of the source — `File not found: …`, `Not a file: …`,
`Failed to read file …`, `Invalid JSON in …` — are told apart by their
first two characters; the class name is always `"IngestionError"`, so
the message text is the only thing that distinguishes them. -/
def classifyIngestionError (e : IngestionError) : Option IngestKind :=
  match e.message.data with
  | 'F' :: 'i' :: _ => some .notFound
  | 'N' :: 'o' :: _ => some .invalidInput
  | 'F' :: 'a' :: _ => some .readFailure
  | 'I' :: 'n' :: _ => some .parseFailure
  | _ => none

/-- The nine option-specific columns, exactly the local variables the
options block of `ingest_json_file` initialises to `None` at
src/src/ingestion.py lines 304-312 and conditionally fills at lines
316-324. -/
def optionFieldNames : List String :=
  ["option_contract_symbol", "option_type", "option_strike",
   "option_expiration", "option_days_to_expiry", "option_delta",
   "option_mid_price", "option_volume", "option_open_interest"]

/-- The subtree shapes the `x or {}` guard copes with: falsy values
(replaced by the empty dict) and dicts; a truthy non-dict slips through
the guard and makes the following `.get` raise. -/
def falsyOrDict : Json → Bool
  | .obj _ => true
  | j => !truthy j

/-- The values `_extract_confidence_pct` copes with: strings and falsy
values; a truthy non-string reaches `re.search` and raises. -/
def strOrFalsy : Json → Bool
  | .str _ => true
  | j => !truthy j

/-- The `trade_plan` variable of src/src/ingestion.py line 255
(statement-side accessor). -/
def tradePlanOf (kvs : List (String × Json)) : Json :=
  orEmpty (jget kvs "trade_plan")

/-- The `verdict` variable of src/src/ingestion.py line 258
(statement-side accessor). -/
def verdictOf (kvs : List (String × Json)) : Json :=
  orEmpty (dictGet (tradePlanOf kvs) "verdict")

/-- The `agent_verdicts` variable of src/src/ingestion.py line 293
(statement-side accessor). -/
def agentVerdictsOf (kvs : List (String × Json)) : Json :=
  orEmpty (jget kvs "agent_verdicts")

/-- The `entry` variable of src/src/ingestion.py line 265
(statement-side accessor). -/
def entryOf (kvs : List (String × Json)) : Json :=
  orEmpty (dictGet (tradePlanOf kvs) "entry")

/-- The `technical` variable of src/src/ingestion.py line 294
(statement-side accessor). -/
def technicalOf (kvs : List (String × Json)) : Json :=
  orEmpty (dictGet (agentVerdictsOf kvs) "technical")

/-- The `macro` variable of src/src/ingestion.py line 295
(statement-side accessor). -/
def macroOf (kvs : List (String × Json)) : Json :=
  orEmpty (dictGet (agentVerdictsOf kvs) "macro")

/-- The `recommended_contract` variable of src/src/ingestion.py line 315
(statement-side accessor). -/
def recommendedContractOf (kvs : List (String × Json)) : Json :=
  orEmpty (dictGet (tradePlanOf kvs) "recommended_contract")

/-- Concrete store row: path `/a`, content hash `h1`. -/
def rowA : Row :=
  { id := 1,
    data := { file_path := "/a", json_content := "x", content_hash := "h1" },
    ingested_at := 0, updated_at := 0 }

/-- Concrete store row: path `/b`, content hash `h2`. -/
def rowB : Row :=
  { id := 2,
    data := { file_path := "/b", json_content := "y", content_hash := "h2" },
    ingested_at := 0, updated_at := 0 }

/-- Concrete store holding rows `/a` and `/b`. -/
def dbS0 : DBState := { rows := [rowA, rowB], nextId := 3 }

/-- A record with the content of row `/a` (hash `h1`) under the new
path `/b`: same bytes, different path. -/
def dNewDup : GrailFileData :=
  { file_path := "/b", json_content := "x", content_hash := "h1" }

/-- A record with fresh content (hash `h3`) at the existing path `/a`. -/
def dUpd : GrailFileData :=
  { file_path := "/a", json_content := "z", content_hash := "h3",
    ticker := Json.str "AAPL", account_size := some 100 }

/-- A non-OPTIONS document that nevertheless carries an options-shaped
`trade_plan.recommended_contract` subtree. -/
def docEquity : Json :=
  Json.obj
    [("asset_type", Json.str "EQUITY"),
     ("trade_plan", Json.obj
        [("recommended_contract", Json.obj
            [("symbol", Json.str "SPY241220C00600000"),
             ("strike", Json.num 600)])])]

/-- A concrete pre-migration schema state: legacy table, `json_content`
still TEXT, one user row without a content hash. -/
def migS0 : MigrationState :=
  { hasContentHashCol := false, hasUpdatedAtCol := false,
    contentHashNotNull := false, contentHashUnique := false,
    jsonContentType := some "text",
    rows := [{ id := 1, json_content := "x", content_hash := none }] }

/-! ## Helper lemmas -/

set_option exponentiation.threshold 1100 in
/-- The literal `floatOverflowBound` is `2 ^ 1024 - 2 ^ 970`. -/
theorem floatOverflowBound_eq : floatOverflowBound = 2 ^ 1024 - 2 ^ 970 := by
  norm_num [floatOverflowBound]

/-- Bind on a successful `Except` computation steps into the
continuation. -/
theorem bindE_ok {α β ε : Type} (a : α) (f : α → Except ε β) :
    (Except.ok a >>= f) = f a := rfl

/-- Bind on a failed `Except` computation propagates the error. -/
theorem bindE_err {α β ε : Type} (e : ε) (f : α → Except ε β) :
    ((Except.error e : Except ε α) >>= f) = Except.error e := rfl

/-- A character list without Unicode decimal digits has no numeric
token. -/
theorem numToken_eq_none (cs : List Char) (h : ∀ c ∈ cs, pyDigit c = false) :
    numToken cs = none := by
  induction cs with
  | nil => rfl
  | cons c rest ih =>
    have hc : pyDigit c = false := h c (List.mem_cons_self c rest)
    simp only [numToken, hc, Bool.false_eq_true, if_false]
    exact ih (fun x hx => h x (List.mem_cons_of_mem c hx))

/-- A character list containing a Unicode decimal digit has a numeric
token. -/
theorem numToken_isSome (cs : List Char) (h : ∃ c ∈ cs, pyDigit c = true) :
    ∃ t, numToken cs = some t := by
  induction cs with
  | nil => simp at h
  | cons c rest ih =>
    by_cases hc : pyDigit c = true
    · exact ⟨((c :: rest).takeWhile pyDigit,
              fracDigits ((c :: rest).dropWhile pyDigit)),
             by simp [numToken, hc]⟩
    · have : ∃ x ∈ rest, pyDigit x = true := by
        rcases h with ⟨x, hx, hxd⟩
        rcases List.mem_cons.mp hx with rfl | hmem
        · exact absurd hxd hc
        · exact ⟨x, hmem, hxd⟩
      rcases ih this with ⟨t, ht⟩
      exact ⟨t, by simp [numToken, hc, ht]⟩

/-! ## Claim theorems -/

/-- C5: `_safe_bool` yields a value exactly for a literal boolean source
value; the string "true", the numbers 0 and 1, and null — and every
other non-boolean value — yield absent.  The embedding is a total
function, mirroring that the source performs no fallible operation in
this coercion, so it never raises. -/
theorem safe_bool_literal_only :
    (∀ b, safeBool (Json.bool b) = some b) ∧
    (∀ v : Json, (∀ b, v ≠ Json.bool b) → safeBool v = none) ∧
    safeBool (Json.str "true") = none ∧
    safeBool (Json.num 0) = none ∧
    safeBool (Json.num 1) = none ∧
    safeBool Json.null = none := by
  refine ⟨fun b => rfl, fun v h => ?_, rfl, rfl, rfl, rfl⟩
  cases v
  case bool b => exact absurd rfl (h b)
  all_goals rfl

/-- C5 witness: the strict coercion evaluated at the claim's inputs —
`True` passes through, the string "true", 0, 1 and null are absent. -/
theorem safe_bool_literal_only_witness :
    safeBool (Json.bool true) = some true ∧
    safeBool (Json.num 0) = none := by
  have h := safe_bool_literal_only
  exact ⟨h.1 true, h.2.2.2.1⟩

/-- C6: `_extract_confidence_pct` maps free text to the value of its
first numeric token (the regex group before the optional `%`): the three
docstring examples, a mid-text decimal token, and a token written in
Arabic-Indic digits (the regex `\d` and `float()` accept any Unicode
decimal digit) evaluate as stated, and the result is absent for absent
input, empty input, and every input containing no Unicode decimal
digit, while any input containing one yields a value. -/
theorem extract_confidence_pct_leading_token :
    extract_confidence_pct (some "85% confidence - reason") = some 85 ∧
    extract_confidence_pct (some "60% confidence") = some 60 ∧
    extract_confidence_pct (some "0% confidence - Data Unavailable") = some 0 ∧
    extract_confidence_pct (some "top 3.5 of 9") = some (mkRat 7 2) ∧
    extract_confidence_pct (some "٨٥% confidence") = some 85 ∧
    extract_confidence_pct none = none ∧
    extract_confidence_pct (some "") = none ∧
    (∀ s : String, (∀ c ∈ s.data, pyDigit c = false) →
      extract_confidence_pct (some s) = none) ∧
    (∀ s : String, (∃ c ∈ s.data, pyDigit c = true) →
      ∃ q, extract_confidence_pct (some s) = some q) := by
  refine ⟨by decide, by decide, by decide, by decide, by decide, rfl, rfl,
          fun s h => ?_, fun s h => ?_⟩
  · by_cases hs : s = ""
    · simp [extract_confidence_pct, hs]
    · simp [extract_confidence_pct, hs, numToken_eq_none s.data h]
  · have hs : ¬ s = "" := by
      rintro rfl
      simp at h
    rcases numToken_isSome s.data h with ⟨⟨ds, fs⟩, ht⟩
    exact ⟨tokenVal ds fs, by simp [extract_confidence_pct, hs, ht]⟩

/-- C10: Python numeric coercion accepts booleans — `_safe_float(True)`
is `1.0` and `_safe_int(True)` is `1` (`0.0`/`0` for `False`) — while
`_safe_bool` rejects every non-boolean; so a boolean-valued source field
populates a numeric extracted field, shown on `account_size` for a
document with `"account_size": true`. -/
theorem safe_numeric_accepts_bool :
    safeFloat (Json.bool true) = .ok (some 1) ∧
    safeInt (Json.bool true) = some 1 ∧
    safeFloat (Json.bool false) = .ok (some 0) ∧
    safeInt (Json.bool false) = some 0 ∧
    safeBool (Json.num 1) = none ∧
    safeBool (Json.str "1") = none ∧
    (∃ r, extractFields (Json.obj [("account_size", Json.bool true)])
        "c" "/p" "h" none none = .ok r ∧
      r.account_size = some 1 ∧ r.should_trade = none) := by
  exact ⟨rfl, rfl, rfl, rfl, rfl, rfl, ⟨_, rfl, rfl, rfl⟩⟩

/-- C1: when the record's `content_hash` matches an existing row,
`insert_grail_file` returns `duplicate` and performs no write — the
state is returned unchanged — whatever the path lookup would find and
whether or not the write would fail, because the hash lookup runs first
and returns immediately. -/
theorem insert_grail_file_duplicate (s : DBState) (d : GrailFileData)
    (now : ℕ) (writeFail : Option String) (r : Row)
    (h : findByHash s d.content_hash = some r) :
    insert_grail_file s d now writeFail = (.ok .duplicate, s) := by
  simp [insert_grail_file, h]

/-- C1 witness: the content of row `/a` (hash `h1`) arriving under the
path `/b` — the path of the other stored row — is still reported
duplicate with the store untouched: hash-match precedence decides. -/
theorem insert_grail_file_duplicate_witness :
    findByHash dbS0 dNewDup.content_hash = some rowA ∧
    dNewDup.file_path ≠ rowA.data.file_path ∧
    insert_grail_file dbS0 dNewDup 7 none = (.ok .duplicate, dbS0) :=
  ⟨rfl, by decide,
   insert_grail_file_duplicate dbS0 dNewDup 7 none rowA rfl⟩

/-- C2: when the hash is new but the path matches, the matching row is
overwritten with every field of the new record — its stored data becomes
the record, except that `file_path` keeps the row's value — `updated_at`
is refreshed to the write time, `id` and `ingested_at` are untouched,
the result is `updated`, and every other row (and the id counter) is
left exactly as it was. -/
theorem insert_grail_file_updated (s : DBState) (d : GrailFileData)
    (now : ℕ) (r0 : Row)
    (h1 : findByHash s d.content_hash = none)
    (h2 : findByPath s d.file_path = some r0) :
    ∃ s', insert_grail_file s d now none = (.ok .updated, s') ∧
      s'.nextId = s.nextId ∧ s'.rows.length = s.rows.length ∧
      ∀ i (hi : i < s.rows.length) (hi2 : i < s'.rows.length),
        ((((s.rows.get ⟨i, hi⟩).data).file_path ≠ d.file_path →
           s'.rows.get ⟨i, hi2⟩ = s.rows.get ⟨i, hi⟩) ∧
         (((s.rows.get ⟨i, hi⟩).data).file_path = d.file_path →
           (s'.rows.get ⟨i, hi2⟩).id = (s.rows.get ⟨i, hi⟩).id ∧
           (s'.rows.get ⟨i, hi2⟩).ingested_at =
             (s.rows.get ⟨i, hi⟩).ingested_at ∧
           (s'.rows.get ⟨i, hi2⟩).updated_at = now ∧
           ((s'.rows.get ⟨i, hi2⟩).data) =
             { d with file_path := ((s.rows.get ⟨i, hi⟩).data).file_path })) := by
  have he : insert_grail_file s d now none =
      (.ok .updated,
       { rows := s.rows.map
           (fun r => if (r.data).file_path = d.file_path
                     then updateRow r d now else r),
         nextId := s.nextId }) := by
    simp [insert_grail_file, h1, h2]
  refine ⟨_, he, rfl, by simp, ?_⟩
  intro i hi hi2
  refine ⟨fun hne => ?_, fun heq => ?_⟩
  · simp only [List.get_eq_getElem, List.getElem_map] at hne ⊢
    rw [if_neg hne]
  · simp only [List.get_eq_getElem, List.getElem_map] at heq ⊢
    rw [if_pos heq]
    exact ⟨rfl, rfl, rfl, rfl⟩

/-- C2 witness: new content `h3` at the stored path `/a` is applied to
row `/a` — result `updated`, same row count and id counter, row `/b`
untouched, row `/a` rewritten with the new record, its `id`,
`ingested_at` and `file_path` kept, `updated_at` refreshed. -/
theorem insert_grail_file_updated_witness :
    ∃ s', insert_grail_file dbS0 dUpd 9 none = (.ok .updated, s') ∧
      s'.nextId = dbS0.nextId ∧ s'.rows.length = dbS0.rows.length := by
  obtain ⟨s', he, hn, hl, _⟩ :=
    insert_grail_file_updated dbS0 dUpd 9 rowA rfl rfl
  exact ⟨s', he, hn, hl⟩

/-- C3: when the write statement fails (`psycopg2.Error` injected), the
handler rolls the transaction back and raises `DatabaseError` with the
source's message format, and the store state is returned unchanged — no
partial write survives, in the update branch and the insert branch
alike. -/
theorem insert_grail_file_write_failure (s : DBState) (d : GrailFileData)
    (now : ℕ) (m : String)
    (h : findByHash s d.content_hash = none) :
    insert_grail_file s d now (some m) =
      (.error ⟨"Failed to insert/update file: " ++ m⟩, s) := by
  simp only [insert_grail_file, h]
  cases hp : findByPath s d.file_path <;> simp [hp]

/-- C3 witness: a failing write for fresh content at path `/a` raises
`DatabaseError` and leaves the two-row store exactly as it was. -/
theorem insert_grail_file_write_failure_witness :
    findByHash dbS0 dUpd.content_hash = none ∧
    insert_grail_file dbS0 dUpd 9 (some "boom") =
      (.error ⟨"Failed to insert/update file: " ++ "boom"⟩, dbS0) :=
  ⟨rfl, insert_grail_file_write_failure dbS0 dUpd 9 "boom" rfl⟩

/-- C8 counterexample: for a missing path the code raises the base
class itself — the error value's class is `"IngestionError"`, not a
`NotFoundError` subtype; src/src/ingestion.py defines exactly one
exception class and every failure site raises it directly, so the four
claimed subtypes do not exist. -/
theorem ingestion_error_single_class :
    ingestCheck (fun _ => FileNode.missing) (fun _ => .ok Json.null) "x" =
      .error ⟨"IngestionError", "File not found: " ++ "x"⟩ ∧
    ("IngestionError" : String) ≠ "NotFoundError" :=
  ⟨rfl, by decide⟩

/-- C8 amended: ingestion fails through the single exception class
`IngestionError`; the four failure modes are nevertheless
distinguishable from the error value alone — by the message text, whose
distinct formats the total classifier `classifyIngestionError` tells
apart: missing path → not-found, non-regular file → invalid-input,
unreadable file → read-failure, invalid JSON → parse-failure. -/
theorem ingest_failure_modes (fs : String → FileNode)
    (loads : String → Except String Json) (p : String) :
    (∀ e, ingestCheck fs loads p = .error e →
      e.className = "IngestionError") ∧
    (fs p = .missing → ∃ e, ingestCheck fs loads p = .error e ∧
      classifyIngestionError e = some .notFound) ∧
    (fs p = .notFile → ∃ e, ingestCheck fs loads p = .error e ∧
      classifyIngestionError e = some .invalidInput) ∧
    (∀ m, fs p = .unreadable m → ∃ e, ingestCheck fs loads p = .error e ∧
      classifyIngestionError e = some .readFailure) ∧
    (∀ c m, fs p = .readable c → loads c = .error m →
      ∃ e, ingestCheck fs loads p = .error e ∧
        classifyIngestionError e = some .parseFailure) := by
  refine ⟨?_, ?_, ?_, ?_, ?_⟩
  · intro e he
    cases hfs : fs p
    case missing => simp only [ingestCheck, hfs] at he; cases he; rfl
    case notFile => simp only [ingestCheck, hfs] at he; cases he; rfl
    case unreadable m => simp only [ingestCheck, hfs] at he; cases he; rfl
    case readable c =>
      cases hl : loads c
      case error m =>
        simp only [ingestCheck, hfs, hl] at he
        cases he
        rfl
      case ok j =>
        simp only [ingestCheck, hfs, hl] at he
        simp at he
  · intro hm
    refine ⟨mkIngestionError ("File not found: " ++ p),
            by simp only [ingestCheck, hm], ?_⟩
    have h : ("File not found: " ++ p).data =
        'F' :: 'i' :: ("le not found: ".data ++ p.data) := by
      rw [String.data_append]
      rfl
    unfold classifyIngestionError mkIngestionError
    rw [h]
    rfl
  · intro hm
    refine ⟨mkIngestionError ("Not a file: " ++ p),
            by simp only [ingestCheck, hm], ?_⟩
    have h : ("Not a file: " ++ p).data =
        'N' :: 'o' :: ("t a file: ".data ++ p.data) := by
      rw [String.data_append]
      rfl
    unfold classifyIngestionError mkIngestionError
    rw [h]
    rfl
  · intro m hm
    refine ⟨mkIngestionError ("Failed to read file " ++ p ++ ": " ++ m),
            by simp only [ingestCheck, hm], ?_⟩
    have h : ("Failed to read file " ++ p ++ ": " ++ m).data =
        'F' :: 'a' :: ((("iled to read file ".data ++ p.data) ++
          ": ".data) ++ m.data) := by
      rw [String.data_append, String.data_append, String.data_append]
      rfl
    unfold classifyIngestionError mkIngestionError
    rw [h]
    rfl
  · intro c m hc hl
    refine ⟨mkIngestionError ("Invalid JSON in " ++ p ++ ": " ++ m),
            by simp only [ingestCheck, hc, hl], ?_⟩
    have h : ("Invalid JSON in " ++ p ++ ": " ++ m).data =
        'I' :: 'n' :: ((("valid JSON in ".data ++ p.data) ++
          ": ".data) ++ m.data) := by
      rw [String.data_append, String.data_append, String.data_append]
      rfl
    unfold classifyIngestionError mkIngestionError
    rw [h]
    rfl

/-- C9 counterexample: the content-hash migration failing at its ALTER
TABLE step is swallowed (the result is ok and the pre-migration state is
kept) but emits NO log line — the except handler of src/src/database.py
lines 191-195 only rolls back and passes, there is no logging call
anywhere in the module — contradicting the claim's "logged". -/
theorem migration_failure_not_logged :
    (migrateAddContentHash (fun c => c) migS0 (some 2)).2.1 =
      ([] : List String) ∧
    (migrateAddContentHash (fun c => c) migS0 (some 2)).2.2 = .ok () ∧
    (migrateAddContentHash (fun c => c) migS0 (some 2)).1 = migS0 :=
  ⟨rfl, rfl, rfl⟩

/-- C9 amended: a failing migration step is rolled back and silently
swallowed, without logging: both migrations always return ok — setup
continues and no failure surfaces to the caller — and always emit an
empty log; a failure at any step up to and including the backfill leaves
every user data row unchanged, and a failing json_content type
conversion leaves the whole schema state unchanged. -/
theorem migration_failures_swallowed (hash : String → String)
    (s : MigrationState) (failStep : Option ℕ) :
    (migrateAddContentHash hash s failStep).2.2 = .ok () ∧
    (migrateAddContentHash hash s failStep).2.1 = [] ∧
    (migrateTextToJsonb s failStep).2.2 = .ok () ∧
    (migrateTextToJsonb s failStep).2.1 = [] ∧
    (∀ n, 1 ≤ n → n ≤ 4 → failStep = some n →
      ((migrateAddContentHash hash s failStep).1).rows = s.rows) ∧
    (∀ n, 1 ≤ n → n ≤ 2 → failStep = some n →
      (migrateTextToJsonb s failStep).1 = s) := by
  refine ⟨?_, ?_, ?_, ?_, ?_, ?_⟩
  · unfold migrateAddContentHash
    split_ifs <;> rfl
  · unfold migrateAddContentHash
    split_ifs <;> rfl
  · cases hj : s.jsonContentType <;> simp only [migrateTextToJsonb, hj] <;>
      split_ifs <;> rfl
  · cases hj : s.jsonContentType <;> simp only [migrateTextToJsonb, hj] <;>
      split_ifs <;> rfl
  · intro n hn1 hn4 hf
    subst hf
    interval_cases n <;>
      by_cases hc : s.hasContentHashCol <;>
      simp [migrateAddContentHash, hc]
  · intro n hn1 hn2 hf
    subst hf
    interval_cases n <;>
      cases hj : s.jsonContentType <;>
      simp [migrateTextToJsonb, hj]

/-- Splitting a successful `Except` bind into its two steps. -/
theorem ok_of_bind {α β ε : Type} {m : Except ε α} {f : α → Except ε β}
    {r : β} (h : (m >>= f) = .ok r) : ∃ a, m = .ok a ∧ f a = .ok r := by
  cases m with
  | error e => rw [bindE_err] at h; cases h
  | ok a => exact ⟨a, rfl, h⟩

/-- C4 amended: for every parsed document whose `asset_type` is not the
string "OPTIONS" (including when it is absent), extraction leaves all
NINE option-specific fields absent — the claim counts eight, but the
source forces nine (symbol, type, strike, expiration, days-to-expiry,
delta, mid-price, volume, open-interest) — regardless of any
options-shaped subtree such as `trade_plan.recommended_contract` in the
document. -/
theorem extract_non_options_absent (data : Json) (jc fp ch : String)
    (fct fmt : Option ℕ) (r : GrailFileData)
    (hok : extractFields data jc fp ch fct fmt = .ok r)
    (hne : isOptions (dictGet data "asset_type") = false) :
    r.option_contract_symbol = Json.null ∧ r.option_type = Json.null ∧
    r.option_strike = none ∧ r.option_expiration = Json.null ∧
    r.option_days_to_expiry = none ∧ r.option_delta = none ∧
    r.option_mid_price = none ∧ r.option_volume = none ∧
    r.option_open_interest = none := by
  cases data
  case obj kvs =>
    have hne2 : isOptions (jget kvs "asset_type") = false := by
      simpa [dictGet] using hne
    simp only [extractFields, hne2, Bool.false_eq_true, if_false] at hok
    repeat (obtain ⟨_, -, hok⟩ := ok_of_bind hok; try dsimp only at hok)
    cases hok
    exact ⟨rfl, rfl, rfl, rfl, rfl, rfl, rfl, rfl, rfl⟩
  all_goals simp [extractFields] at hok

/-- C4 witness: a non-OPTIONS document carrying an options-shaped
`trade_plan.recommended_contract` subtree extracts with all nine
option-specific fields absent. -/
theorem extract_non_options_absent_witness :
    ∃ r, extractFields docEquity "c" "/p" "h" none none = .ok r ∧
      (r.option_contract_symbol = Json.null ∧ r.option_type = Json.null ∧
       r.option_strike = none ∧ r.option_expiration = Json.null ∧
       r.option_days_to_expiry = none ∧ r.option_delta = none ∧
       r.option_mid_price = none ∧ r.option_volume = none ∧
       r.option_open_interest = none) := by
  refine ⟨_, rfl, ?_⟩
  exact extract_non_options_absent docEquity "c" "/p" "h" none none _ rfl
    (by decide)

/-- C4 counterexample: the option-specific fields number NINE, not the
eight the claim asserts — `optionFieldNames` lists exactly the variables
the source forces to `None` at src/src/ingestion.py lines 304-312 — and
all nine are absent on a concrete non-OPTIONS document that carries an
options-shaped subtree. -/
theorem option_fields_are_nine :
    optionFieldNames.length = 9 ∧ ¬ optionFieldNames.length = 8 ∧
    isOptions (dictGet docEquity "asset_type") = false ∧
    (∃ r, extractFields docEquity "c" "/p" "h" none none = .ok r ∧
      r.option_contract_symbol = Json.null ∧ r.option_volume = none ∧
      r.option_open_interest = none) := by
  refine ⟨rfl, by decide, by decide, ⟨_, rfl, rfl, rfl, rfl⟩⟩

/-- A falsy-or-dict value survives the `x or {}` guard as a dict, the
empty one when it was falsy. -/
theorem orEmpty_obj_of_falsyOrDict (j : Json) (h : falsyOrDict j = true) :
    ∃ w, orEmpty j = .obj w ∧ (truthy j = false → w = []) := by
  cases j
  case obj kvs =>
    by_cases ht : truthy (Json.obj kvs) = true
    · refine ⟨kvs, by simp [orEmpty, ht], fun hf => ?_⟩
      rw [ht] at hf
      cases hf
    · have ht2 : truthy (Json.obj kvs) = false := by simpa using ht
      exact ⟨[], by simp [orEmpty, ht2], fun hf => rfl⟩
  all_goals
    (refine ⟨[], ?_, fun hf => rfl⟩
     simp only [falsyOrDict, Bool.not_eq_true'] at h
     simp [orEmpty, h])

/-- A string-or-falsy confidence value makes the percentage derivation
succeed, with `none` when the value was falsy. -/
theorem confidencePct_ok_of_strOrFalsy (j : Json) (h : strOrFalsy j = true) :
    ∃ c, confidencePctOfValue j = .ok c ∧ (truthy j = false → c = none) := by
  cases j
  case str s =>
    by_cases ht : truthy (Json.str s) = true
    · refine ⟨extract_confidence_pct (some s),
              by simp [confidencePctOfValue, ht], fun hf => ?_⟩
      rw [ht] at hf
      cases hf
    · have ht2 : truthy (Json.str s) = false := by simpa using ht
      exact ⟨none, by simp [confidencePctOfValue, ht2], fun hf => rfl⟩
  all_goals
    (refine ⟨none, ?_, fun hf => rfl⟩
     simp only [strOrFalsy, Bool.not_eq_true'] at h
     simp [confidencePctOfValue, h])

/-- A non-overflowing value makes `_safe_float` return without raising,
with `none` for a null (absent) value. -/
theorem safeFloat_ok_of_noOverflow (v : Json) (h : noFloatOverflow v = true) :
    ∃ x, safeFloat v = .ok x ∧ (v = Json.null → x = none) := by
  cases v
  case null => exact ⟨none, rfl, fun hh => rfl⟩
  case bool b =>
    exact ⟨some (if b then 1 else 0), rfl, fun hh => Json.noConfusion hh⟩
  case num q =>
    have hn : ¬ (q.den = 1 ∧ floatOverflowBound ≤ q.num.natAbs) :=
      of_decide_eq_true h
    exact ⟨some q, by simp [safeFloat, hn], fun hh => Json.noConfusion hh⟩
  case str s => exact ⟨pyFloatString s, rfl, fun hh => Json.noConfusion hh⟩
  case arr xs => exact ⟨none, rfl, fun hh => Json.noConfusion hh⟩
  case obj kvs => exact ⟨none, rfl, fun hh => Json.noConfusion hh⟩

/-- Full evaluation of `extractFields` on a top-level object once every
subtree the chain dereferences is pinned to a dict and every
float-coerced leaf is pinned to a non-raising result: the result is `ok`
with every field read through `jget` from the corresponding subtree. -/
theorem extractFields_eval (kvs tkvs vkvs ekvs pkvs mkvs akvs tekvs makvs
      skvs rckvs : List (String × Json))
    (jc fp ch : String) (fct fmt : Option ℕ)
    (cpc acc rsk epr tcf mcf ost odl omp : Option ℚ)
    (hacc : safeFloat (jget kvs "account_size") = .ok acc)
    (hrsk : safeFloat (jget kvs "risk_percent") = .ok rsk)
    (htp : orEmpty (jget kvs "trade_plan") = .obj tkvs)
    (hv : orEmpty (jget tkvs "verdict") = .obj vkvs)
    (hc : confidencePctOfValue (jget vkvs "confidence") = .ok cpc)
    (he : orEmpty (jget tkvs "entry") = .obj ekvs)
    (hepr : safeFloat (jget ekvs "current_price") = .ok epr)
    (hp : orEmpty (jget tkvs "position") = .obj pkvs)
    (hm : orEmpty (jget kvs "market_session") = .obj mkvs)
    (ha : orEmpty (jget kvs "agent_verdicts") = .obj akvs)
    (hte : orEmpty (jget akvs "technical") = .obj tekvs)
    (hma : orEmpty (jget akvs "macro") = .obj makvs)
    (htcf : safeFloat (jget tekvs "confidence") = .ok tcf)
    (hmcf : safeFloat (jget makvs "confidence") = .ok mcf)
    (hs : orEmpty (jget tkvs "synthesis") = .obj skvs)
    (hrc : isOptions (jget kvs "asset_type") = true →
      orEmpty (jget tkvs "recommended_contract") = .obj rckvs ∧
      safeFloat (jget rckvs "strike") = .ok ost ∧
      safeFloat (jget rckvs "delta") = .ok odl ∧
      safeFloat (jget rckvs "mid_price") = .ok omp) :
    extractFields (.obj kvs) jc fp ch fct fmt = .ok
      { file_path := fp, json_content := jc, content_hash := ch,
        ticker := jget kvs "ticker",
        asset_type := jget kvs "asset_type",
        file_created_at := fct, file_modified_at := fmt,
        status := jget kvs "status",
        error_message := jget kvs "error",
        trade_style := jget kvs "trade_style",
        account_size := acc,
        risk_percent := rsk,
        should_trade := safeBool (jget tkvs "trade"),
        trade_action := jget vkvs "action",
        trade_confidence_text := jget vkvs "confidence",
        trade_confidence_pct := cpc,
        no_trade_reason := jget tkvs "no_trade_reason",
        entry_direction := jget ekvs "direction",
        entry_price := epr,
        entry_recommendation := jget ekvs "recommendation",
        position_quantity := safeInt (jget pkvs "quantity"),
        position_unit_type := jget pkvs "unit_type",
        position_size_recommendation := jget pkvs "size_recommendation",
        position_total_cost_text := jget pkvs "total_cost",
        position_max_risk_text := jget pkvs "max_risk",
        market_status := jget mkvs "status",
        is_tradeable_now := safeBool (jget mkvs "is_tradeable_now"),
        in_trial := safeBool (jget kvs "in_trial"),
        runs_remaining := safeInt (jget kvs "runs_remaining"),
        daily_runs_remaining := safeInt (jget kvs "daily_runs_remaining"),
        resolved_ticker := jget kvs "resolved_ticker",
        resolved_ticker_method := jget kvs "resolved_ticker_method",
        technical_confidence := tcf,
        macro_confidence := mcf,
        wild_card_risk := jget skvs "wild_card_risk",
        agent_agreement := jget skvs "agent_agreement",
        option_contract_symbol :=
          if isOptions (jget kvs "asset_type") then jget rckvs "symbol"
          else Json.null,
        option_type :=
          if isOptions (jget kvs "asset_type") then jget rckvs "type"
          else Json.null,
        option_strike :=
          if isOptions (jget kvs "asset_type") then ost else none,
        option_expiration :=
          if isOptions (jget kvs "asset_type") then jget rckvs "expiration"
          else Json.null,
        option_days_to_expiry :=
          if isOptions (jget kvs "asset_type") then
            safeInt (jget rckvs "days_to_expiration") else none,
        option_delta :=
          if isOptions (jget kvs "asset_type") then odl else none,
        option_mid_price :=
          if isOptions (jget kvs "asset_type") then omp else none,
        option_volume :=
          if isOptions (jget kvs "asset_type") then
            safeInt (jget rckvs "volume") else none,
        option_open_interest :=
          if isOptions (jget kvs "asset_type") then
            safeInt (jget rckvs "open_interest") else none } := by
  cases ho : isOptions (jget kvs "asset_type")
  case false =>
    simp only [extractFields, hacc, hrsk, htp, hv, hc, he, hepr, hp, hm, ha,
               hte, hma, htcf, hmcf, hs, ho, getPy, bindE_ok,
               Bool.false_eq_true, if_false]
  case true =>
    obtain ⟨hrc2, host, hodl, homp⟩ := hrc ho
    simp only [extractFields, hacc, hrsk, htp, hv, hc, he, hepr, hp, hm, ha,
               hte, hma, htcf, hmcf, hs, ho, hrc2, host, hodl, homp, getPy,
               bindE_ok, if_true]

/-- C7 counterexample: two syntactically valid documents on which real
extraction raises instead of yielding absent fields.  First, a
`trade_plan` of the wrong shape — the truthy non-dict string "x" —
raises an uncaught `AttributeError` (the `or` at src/src/ingestion.py
line 255 only replaces falsy values, so line 256 calls `.get` on a
string).  Second, a document with every optional subtree missing but an
integral `account_size` of magnitude `2 ^ 1024` (written as a decimal
literal) raises an uncaught
`OverflowError` from `float()` inside `_safe_float`, whose
`except (ValueError, TypeError)` does not catch it — refuting
"extraction never raises for missing-but-optional structure" even with
all subtrees missing. -/
theorem extract_wrong_shape_raises :
    extractFields (Json.obj [("trade_plan", Json.str "x")]) "c" "/p" "h"
      none none = .error .attributeError ∧
    extractFields (Json.obj [("account_size",
        Json.num 179769313486231590772930519078902473361797697894230657273430081157732675805500963132708477322407536021120113879871393357658789768814416622492847430639474124377767893424865485276302219601246094119453082952085005768838150682342462881473913110540827237163350510684586298239947245938479716304835356329624224137216)])
      "c" "/p" "h" none none = .error .overflowError :=
  ⟨rfl, rfl⟩

/-- C7 amended: for every top-level-object document in which an optional
subtree slot (trade_plan, verdict, entry, position, market_session,
agent_verdicts, technical, macro, synthesis) is missing, null or falsy —
provided every such slot is at worst falsy or a dict, the verdict
confidence at worst falsy or a string, and no float-coerced numeric leaf
(account_size, risk_percent, entry.current_price, the two agent
confidences, and the option leaves when OPTIONS) is an integer large
enough to overflow `float()` — extraction succeeds (no exception) and
every field sourced from a missing/null/falsy subtree is absent, never
zero, false or the empty string.  (A truthy wrong-shape subtree or an
overflowing integer leaf instead raises, see the counterexample: the
claim's "wrong shape" holds only for falsy values, and its "never
raises" only away from the uncaught `OverflowError` path.) -/
theorem extract_missing_subtrees_absent (kvs : List (String × Json))
    (jc fp ch : String) (fct fmt : Option ℕ)
    (h1 : falsyOrDict (jget kvs "trade_plan") = true)
    (h2 : falsyOrDict (dictGet (tradePlanOf kvs) "verdict") = true)
    (h3 : strOrFalsy (dictGet (verdictOf kvs) "confidence") = true)
    (h4 : falsyOrDict (dictGet (tradePlanOf kvs) "entry") = true)
    (h5 : falsyOrDict (dictGet (tradePlanOf kvs) "position") = true)
    (h6 : falsyOrDict (jget kvs "market_session") = true)
    (h7 : falsyOrDict (jget kvs "agent_verdicts") = true)
    (h8 : falsyOrDict (dictGet (agentVerdictsOf kvs) "technical") = true)
    (h9 : falsyOrDict (dictGet (agentVerdictsOf kvs) "macro") = true)
    (h10 : falsyOrDict (dictGet (tradePlanOf kvs) "synthesis") = true)
    (h11 : isOptions (jget kvs "asset_type") = true →
      falsyOrDict (dictGet (tradePlanOf kvs) "recommended_contract") = true ∧
      noFloatOverflow (dictGet (recommendedContractOf kvs) "strike") = true ∧
      noFloatOverflow (dictGet (recommendedContractOf kvs) "delta") = true ∧
      noFloatOverflow (dictGet (recommendedContractOf kvs) "mid_price") = true)
    (h12 : noFloatOverflow (jget kvs "account_size") = true)
    (h13 : noFloatOverflow (jget kvs "risk_percent") = true)
    (h14 : noFloatOverflow (dictGet (entryOf kvs) "current_price") = true)
    (h15 : noFloatOverflow (dictGet (technicalOf kvs) "confidence") = true)
    (h16 : noFloatOverflow (dictGet (macroOf kvs) "confidence") = true) :
    ∃ r, extractFields (Json.obj kvs) jc fp ch fct fmt = .ok r ∧
      (truthy (jget kvs "trade_plan") = false →
        r.should_trade = none ∧ r.trade_action = Json.null ∧
        r.trade_confidence_text = Json.null ∧ r.trade_confidence_pct = none ∧
        r.no_trade_reason = Json.null ∧ r.entry_direction = Json.null ∧
        r.entry_price = none ∧ r.entry_recommendation = Json.null ∧
        r.position_quantity = none ∧ r.position_unit_type = Json.null ∧
        r.position_size_recommendation = Json.null ∧
        r.position_total_cost_text = Json.null ∧
        r.position_max_risk_text = Json.null ∧
        r.wild_card_risk = Json.null ∧ r.agent_agreement = Json.null) ∧
      (truthy (dictGet (tradePlanOf kvs) "verdict") = false →
        r.trade_action = Json.null ∧ r.trade_confidence_text = Json.null ∧
        r.trade_confidence_pct = none) ∧
      (truthy (dictGet (tradePlanOf kvs) "entry") = false →
        r.entry_direction = Json.null ∧ r.entry_price = none ∧
        r.entry_recommendation = Json.null) ∧
      (truthy (dictGet (tradePlanOf kvs) "position") = false →
        r.position_quantity = none ∧ r.position_unit_type = Json.null ∧
        r.position_size_recommendation = Json.null ∧
        r.position_total_cost_text = Json.null ∧
        r.position_max_risk_text = Json.null) ∧
      (truthy (jget kvs "market_session") = false →
        r.market_status = Json.null ∧ r.is_tradeable_now = none) ∧
      (truthy (jget kvs "agent_verdicts") = false →
        r.technical_confidence = none ∧ r.macro_confidence = none) ∧
      (truthy (dictGet (agentVerdictsOf kvs) "technical") = false →
        r.technical_confidence = none) ∧
      (truthy (dictGet (agentVerdictsOf kvs) "macro") = false →
        r.macro_confidence = none) ∧
      (truthy (dictGet (tradePlanOf kvs) "synthesis") = false →
        r.wild_card_risk = Json.null ∧ r.agent_agreement = Json.null) := by
  obtain ⟨acc, hacc, -⟩ := safeFloat_ok_of_noOverflow _ h12
  obtain ⟨rsk, hrsk, -⟩ := safeFloat_ok_of_noOverflow _ h13
  obtain ⟨tkvs, htp, htpE⟩ := orEmpty_obj_of_falsyOrDict _ h1
  simp only [tradePlanOf, htp, dictGet] at h2 h4 h5 h10
  simp only [tradePlanOf, recommendedContractOf, htp, dictGet] at h11
  obtain ⟨vkvs, hv, hvE⟩ := orEmpty_obj_of_falsyOrDict _ h2
  simp only [verdictOf, tradePlanOf, htp, dictGet, hv] at h3
  obtain ⟨cpc, hcv, hcE⟩ := confidencePct_ok_of_strOrFalsy _ h3
  obtain ⟨ekvs, he, heE⟩ := orEmpty_obj_of_falsyOrDict _ h4
  simp only [entryOf, tradePlanOf, htp, dictGet, he] at h14
  obtain ⟨epr, hepr, heprE⟩ := safeFloat_ok_of_noOverflow _ h14
  obtain ⟨pkvs, hp, hpE⟩ := orEmpty_obj_of_falsyOrDict _ h5
  obtain ⟨mkvs, hm, hmE⟩ := orEmpty_obj_of_falsyOrDict _ h6
  obtain ⟨akvs, ha, haE⟩ := orEmpty_obj_of_falsyOrDict _ h7
  simp only [agentVerdictsOf, ha, dictGet] at h8 h9
  obtain ⟨tekvs, hte, hteE⟩ := orEmpty_obj_of_falsyOrDict _ h8
  simp only [technicalOf, agentVerdictsOf, ha, dictGet, hte] at h15
  obtain ⟨tcf, htcf, htcfE⟩ := safeFloat_ok_of_noOverflow _ h15
  obtain ⟨makvs, hma, hmaE⟩ := orEmpty_obj_of_falsyOrDict _ h9
  simp only [macroOf, agentVerdictsOf, ha, dictGet, hma] at h16
  obtain ⟨mcf, hmcf, hmcfE⟩ := safeFloat_ok_of_noOverflow _ h16
  obtain ⟨skvs, hs, hsE⟩ := orEmpty_obj_of_falsyOrDict _ h10
  have hrcEx : ∃ w ost odl omp,
      (isOptions (jget kvs "asset_type") = true →
        orEmpty (jget tkvs "recommended_contract") = .obj w ∧
        safeFloat (jget w "strike") = Except.ok ost ∧
        safeFloat (jget w "delta") = Except.ok odl ∧
        safeFloat (jget w "mid_price") = Except.ok omp) := by
    by_cases ho : isOptions (jget kvs "asset_type") = true
    · obtain ⟨hfd, hs1, hs2, hs3⟩ := h11 ho
      obtain ⟨w, hw, -⟩ := orEmpty_obj_of_falsyOrDict _ hfd
      simp only [hw, dictGet] at hs1 hs2 hs3
      obtain ⟨ost, host, -⟩ := safeFloat_ok_of_noOverflow _ hs1
      obtain ⟨odl, hodl, -⟩ := safeFloat_ok_of_noOverflow _ hs2
      obtain ⟨omp, homp, -⟩ := safeFloat_ok_of_noOverflow _ hs3
      exact ⟨w, ost, odl, omp, fun hh => ⟨hw, host, hodl, homp⟩⟩
    · exact ⟨[], none, none, none, fun hh => absurd hh ho⟩
  obtain ⟨rckvs, ost, odl, omp, hrc⟩ := hrcEx
  refine ⟨_, extractFields_eval kvs tkvs vkvs ekvs pkvs mkvs akvs tekvs
    makvs skvs rckvs jc fp ch fct fmt cpc acc rsk epr tcf mcf ost odl omp
    hacc hrsk htp hv hcv he hepr hp hm ha hte hma htcf hmcf hs hrc,
    ?_, ?_, ?_, ?_, ?_, ?_, ?_, ?_, ?_⟩
  · intro hf
    have e1 := htpE hf
    subst e1
    have e2 := hvE rfl
    subst e2
    have e3 := hcE rfl
    subst e3
    have e4 := heE rfl
    subst e4
    have e4b := heprE rfl
    subst e4b
    have e5 := hpE rfl
    subst e5
    have e6 := hsE rfl
    subst e6
    exact ⟨rfl, rfl, rfl, rfl, rfl, rfl, rfl, rfl, rfl, rfl, rfl, rfl,
           rfl, rfl, rfl⟩
  · intro hf
    simp only [tradePlanOf, htp, dictGet] at hf
    have e2 := hvE hf
    subst e2
    have e3 := hcE rfl
    subst e3
    exact ⟨rfl, rfl, rfl⟩
  · intro hf
    simp only [tradePlanOf, htp, dictGet] at hf
    have e4 := heE hf
    subst e4
    have e4b := heprE rfl
    subst e4b
    exact ⟨rfl, rfl, rfl⟩
  · intro hf
    simp only [tradePlanOf, htp, dictGet] at hf
    have e5 := hpE hf
    subst e5
    exact ⟨rfl, rfl, rfl, rfl, rfl⟩
  · intro hf
    have e := hmE hf
    subst e
    exact ⟨rfl, rfl⟩
  · intro hf
    have ea := haE hf
    subst ea
    have et := hteE rfl
    subst et
    have etc2 := htcfE rfl
    subst etc2
    have em := hmaE rfl
    subst em
    have emc := hmcfE rfl
    subst emc
    exact ⟨rfl, rfl⟩
  · intro hf
    simp only [agentVerdictsOf, ha, dictGet] at hf
    have et := hteE hf
    subst et
    have etc2 := htcfE rfl
    subst etc2
    rfl
  · intro hf
    simp only [agentVerdictsOf, ha, dictGet] at hf
    have em := hmaE hf
    subst em
    have emc := hmcfE rfl
    subst emc
    rfl
  · intro hf
    simp only [tradePlanOf, htp, dictGet] at hf
    have e6 := hsE hf
    subst e6
    exact ⟨rfl, rfl⟩

/-- C7 witness: the empty document — every optional subtree missing —
extracts without exception and with the subtree-sourced fields absent
(shown on one field per group). -/
theorem extract_missing_subtrees_absent_witness :
    ∃ r, extractFields (Json.obj []) "c" "/p" "h" none none = .ok r ∧
      r.should_trade = none ∧ r.trade_confidence_pct = none ∧
      r.market_status = Json.null ∧ r.technical_confidence = none := by
  obtain ⟨r, hr, c1, c2, c3, c4, c5, c6, c7, c8, c9⟩ :=
    extract_missing_subtrees_absent [] "c" "/p" "h" none none
      (by decide) (by decide) (by decide) (by decide) (by decide)
      (by decide) (by decide) (by decide) (by decide) (by decide)
      (by decide) (by decide) (by decide) (by decide) (by decide)
      (by decide)
  exact ⟨r, hr, (c1 rfl).1, (c1 rfl).2.2.2.1, (c5 rfl).1, (c6 rfl).1⟩

end SaveGrail
